import Mathlib

/-!
Verification development for the Agones GameServerSet reconciliation
controller (package gameserversets).  The Go controller is shallowly
embedded: pure computations become Lean functions, API calls (create,
delete, status update, enqueue) become explicit effect values returned by
the embedded functions, and the outcome of each fallible API call is an
explicit environment parameter.  The nondeterministic distribution of
channel items over worker goroutines in the batched pipeline is made
explicit as a schedule parameter.
-/

namespace GameServerSets

/-- APIError models the classes of errors returned by the platform API that
the controller code can receive from a create, delete, get or update call.
The controller distinguishes not-found (k8serrors.IsNotFound) on some call
sites; all other errors are opaque to it. -/
inductive APIError
  | notFound
  | conflict
  | serverError
deriving DecidableEq

/-- WrappedError models the error values the controller itself produces:
errors.Wrapf around an API error, or errors.New for the cache-sync failure
in removeExcessiveGameServers.  The message text never influences control
flow and is not modelled. -/
inductive WrappedError
  | wrapped (cause : APIError)
  | cacheSyncFailed
deriving DecidableEq

/-- GameServerState models v1alpha1.GameServerState.  The controller only
inspects Ready, Allocated and Unhealthy; all remaining states are opaque
and collapsed into an indexed constructor. -/
inductive GameServerState
  | ready
  | allocated
  | unhealthy
  | other (tag : Nat)
deriving DecidableEq

/-- SchedulingStrategy models v1alpha1.SchedulingStrategy. -/
inductive SchedulingStrategy
  | packed
  | distributed
deriving DecidableEq

/-- GameServer models the fields of v1alpha1.GameServer that the controller
reads.  ObjectMeta.DeletionTimestamp is an Option; none corresponds to a
timestamp for which IsZero() holds. -/
structure GameServer where
  ns : String
  name : String
  state : GameServerState
  deletionTimestamp : Option Nat
  node : String
deriving DecidableEq

/-- GameServerSetStatus models v1alpha1.GameServerSetStatus.  The fields are
int32 in Go; replica counts stay far below 2^31 so they are modelled as
mathematical integers. -/
structure GameServerSetStatus where
  replicas : Int
  readyReplicas : Int
  allocatedReplicas : Int
deriving DecidableEq

/-- GameServerSetSpec models v1alpha1.GameServerSetSpec.  The template is
only ever compared for identity by the admission validator, so it is
modelled by an identity token. -/
structure GameServerSetSpec where
  replicas : Int
  scheduling : SchedulingStrategy
  template : Nat
deriving DecidableEq

/-- GameServerSet models the fields of v1alpha1.GameServerSet that the
controller reads and writes. -/
structure GameServerSet where
  ns : String
  name : String
  spec : GameServerSetSpec
  status : GameServerSetStatus
deriving DecidableEq

/-- Constants from controller.go (the misspelling is the source's). -/
def maxCreationParalellism : Nat := 8

/-- Creation batch bound from controller.go. -/
def maxGameServerCreationsPerBatch : Nat := 16

/-- Deletion parallelism bound from controller.go. -/
def maxDeletionParallelism : Nat := 8

/-- Deletion batch bound from controller.go. -/
def maxGameServerDeletionsPerBatch : Nat := 16

/-- workerLoop embeds the body of one worker goroutine inside parallelize:
the worker invokes work on each item it receives, in channel order, and on
the first non-nil error posts that error to the error channel and exits its
loop.  The result is the list of items on which work was invoked together
with the error this worker posted, if any. -/
def workerLoop (work : GameServer → Option WrappedError) :
    List GameServer → List GameServer × Option WrappedError
  | [] => ([], none)
  | gs :: rest =>
    match work gs with
    | some e => ([gs], some e)
    | none =>
      let r := workerLoop work rest
      (gs :: r.1, r.2)

/-- parallelize embeds the parallelize function of controller.go.  The
nondeterministic distribution of channel items over the worker goroutines
is explicit: parts lists, one entry per worker, the subsequence of channel
items that worker received (items consumed by the final drain loop appear
in no entry).  The first component collects every item on which work was
invoked; the second is the value of the single receive from the closed
buffered error channel: some posted error, or none when no worker posted
one. -/
def parallelize (work : GameServer → Option WrappedError)
    (parts : List (List GameServer)) : List GameServer × Option WrappedError :=
  let runs := parts.map (workerLoop work)
  ((runs.map Prod.fst).flatten, (runs.filterMap Prod.snd).head?)

/-- ValidWorkerSchedule holds for a schedule that, for any channel
contents, hands the workers pairwise-disjoint subsequences of the channel
items: together the workers consume a sub-multiset of the channel. -/
def ValidWorkerSchedule (sched : List GameServer → List (List GameServer)) : Prop :=
  ∀ l, List.Subperm ((sched l).flatten) l

/-- Modelled from the spec: the method GameServerSet.GameServer() of the
API types package is not among the sources; per the spec it produces a
fresh member object from the set's template, carrying a unique name and an
owner reference to the set.  Only the number of produced objects matters to
the controller code under verification. -/
def GameServerSet.newGameServer (gsSet : GameServerSet) (i : Nat) : GameServer :=
  { ns := gsSet.ns
    name := gsSet.name ++ toString i
    state := GameServerState.other 0
    deletionTimestamp := none
    node := "" }

/-- generateNGameServers embeds the channel producer of controller.go: it
emits n fresh members built from the set's template. -/
def generateNGameServers (n : Nat) (gsSet : GameServerSet) : List GameServer :=
  (List.range n).map gsSet.newGameServer

/-- insertByFullness inserts one node group into a list of node groups kept
sorted by ascending group size, tie-broken by node identifier. -/
def insertByFullness (g : String × List GameServer) :
    List (String × List GameServer) → List (String × List GameServer)
  | [] => [g]
  | h :: t =>
    if g.2.length < h.2.length ∨ (g.2.length = h.2.length ∧ g.1 < h.1) then
      g :: h :: t
    else
      h :: insertByFullness g t

/-- Modelled from the spec: filterGameServersOnLeastFullNodes is called by
removeExcessiveGameServers but its definition is not among the sources.
Per the spec it groups the candidates by node, sorts the groups by
ascending group size with a stable tie-break on the node identifier, and
emits members in that order until n are chosen.  No claim depends on the
ordering it produces. -/
def filterGameServersOnLeastFullNodes (list : List GameServer) (n : Nat) :
    List GameServer :=
  let nodes := (list.map GameServer.node).dedup
  let groups := nodes.map (fun nd => (nd, list.filter (fun gs => gs.node = nd)))
  let sorted := groups.foldr insertByFullness []
  ((sorted.map Prod.snd).flatten).take n

/-- scaleDownSkip is the skip condition of the victim-collection loop in
removeExcessiveGameServers: allocated members and members already being
deleted are ignored. -/
def scaleDownSkip (gs : GameServer) : Bool :=
  gs.state = GameServerState.allocated ∨ ¬ gs.deletionTimestamp = none

/-- selectVictims embeds the victim-collection loop of
removeExcessiveGameServers: walk the candidate list, skip allocated and
already-deleting members, and accumulate eligible members while room
remains in the batch; when an eligible member no longer fits, stop and
report that more items remain. -/
def selectVictims (room : Nat) :
    List GameServer → List GameServer × Bool
  | [] => ([], false)
  | gs :: rest =>
    if scaleDownSkip gs then
      selectVictims room rest
    else
      match room with
      | 0 => ([], true)
      | r + 1 =>
        let v := selectVictims r rest
        (gs :: v.1, v.2)

/-- syncUnhealthyGameServers embeds the function of the same name: walk the
member list and issue a delete (under the allocation mutex) for every
member in state Unhealthy whose deletion timestamp is zero; a failing
delete is wrapped and returned at once.  The first component lists the
members for which a delete call was issued. -/
def syncUnhealthyGameServers (deleteOutcome : GameServer → Option APIError) :
    List GameServer → List GameServer × Option WrappedError
  | [] => ([], none)
  | gs :: rest =>
    if gs.state = GameServerState.unhealthy ∧ gs.deletionTimestamp = none then
      match deleteOutcome gs with
      | some e => ([gs], some (WrappedError.wrapped e))
      | none =>
        let r := syncUnhealthyGameServers deleteOutcome rest
        (gs :: r.1, r.2)
    else
      syncUnhealthyGameServers deleteOutcome rest

/-- syncMoreGameServers embeds the function of the same name.  Result: the
members for which a create call was issued, whether the set was re-enqueued
immediately, and the returned error.  createOutcome gives the outcome of
each create call; sched distributes the generated members over the worker
goroutines of the pipeline. -/
def syncMoreGameServers (createOutcome : GameServer → Option APIError)
    (sched : List GameServer → List (List GameServer))
    (gsSet : GameServerSet) (diff : Int) :
    List GameServer × Bool × Option WrappedError :=
  if diff ≤ 0 then ([], false, none)
  else
    let batchSize := min diff.toNat maxGameServerCreationsPerBatch
    let haveMoreItems := decide (maxGameServerCreationsPerBatch < diff.toNat)
    let work := fun gs =>
      (createOutcome gs).map WrappedError.wrapped
    let r := parallelize work (sched (generateNGameServers batchSize gsSet))
    match r.2 with
    | some e => (r.1, false, some e)
    | none => (r.1, haveMoreItems, none)

/-- excessDeleteCandidates is the candidate list that
removeExcessiveGameServers hands to its victim-collection loop: under
Packed scheduling the list is first passed through
filterGameServersOnLeastFullNodes. -/
def excessDeleteCandidates (gsSet : GameServerSet) (list : List GameServer)
    (d : Nat) : List GameServer :=
  if gsSet.spec.scheduling = SchedulingStrategy.packed then
    filterGameServersOnLeastFullNodes list d
  else
    list

/-- removeExcessiveGameServers embeds the function of the same name.
cacheSynced is the result of the WaitForCacheSync call made under the
allocation mutex; listFetch is the result of re-listing the owned members
after the sync; deleteOutcome gives the outcome of each delete call; sched
distributes the victims over the worker goroutines.  Result: the members
for which a delete call was issued, whether the set was re-enqueued
immediately, and the returned error. -/
def removeExcessiveGameServers (deleteOutcome : GameServer → Option APIError)
    (sched : List GameServer → List (List GameServer))
    (cacheSynced : Bool) (listFetch : Except APIError (List GameServer))
    (gsSet : GameServerSet) (diff : Int) :
    List GameServer × Bool × Option WrappedError :=
  if 0 ≤ diff then ([], false, none)
  else if ¬ cacheSynced then ([], false, some WrappedError.cacheSyncFailed)
  else
    match listFetch with
    | Except.error e => ([], false, some (WrappedError.wrapped e))
    | Except.ok list =>
      let d := (-diff).toNat
      let cand := excessDeleteCandidates gsSet list d
      let batchSize := min maxGameServerDeletionsPerBatch d
      let v := selectVictims batchSize cand
      let work := fun gs =>
        (deleteOutcome gs).map WrappedError.wrapped
      let r := parallelize work (sched v.1)
      match r.2 with
      | some e => (r.1, false, some e)
      | none => (r.1, v.2, none)

/-- Event records one externally visible action of a reconciliation pass,
in the order the pass performs them. -/
inductive Event
  | delete (gs : GameServer)
  | create (gs : GameServer)
  | updateStatus (st : GameServerSetStatus)
  | enqueueImmediately
deriving DecidableEq

/-- countStep is the loop body of syncGameServerSetState: members bearing a
deletion timestamp are not classified; the rest bump the ready or the
allocated counter according to their state. -/
def countStep (c : Int × Int) (gs : GameServer) : Int × Int :=
  if gs.deletionTimestamp = none then
    match gs.state with
    | GameServerState.ready => (c.1 + 1, c.2)
    | GameServerState.allocated => (c.1, c.2 + 1)
    | _ => c
  else c

/-- gameServerCounts embeds the counting loop of syncGameServerSetState. -/
def gameServerCounts (list : List GameServer) : Int × Int :=
  list.foldl countStep (0, 0)

/-- syncGameServerSetState embeds the function of the same name: recompute
the status triple from the member list and, only when it differs from the
set's current status, issue one update call carrying the new status.
updateOutcome gives the outcome of that update call. -/
def syncGameServerSetState (updateOutcome : Option APIError)
    (gsSet : GameServerSet) (list : List GameServer) :
    List Event × Option WrappedError :=
  let c := gameServerCounts list
  let status : GameServerSetStatus :=
    { replicas := (list.length : Int)
      readyReplicas := c.1
      allocatedReplicas := c.2 }
  if gsSet.status = status then ([], none)
  else
    match updateOutcome with
    | some e => ([Event.updateStatus status], some (WrappedError.wrapped e))
    | none => ([Event.updateStatus status], none)

/-- EnqueueOp distinguishes the two enqueue operations of the work queue. -/
inductive EnqueueOp
  | enqueue
  | enqueueImmediately
deriving DecidableEq

/-- setAddHandler embeds the AddFunc handler that NewController registers on
the GameServerSet informer: every add event enqueues the set. -/
def setAddHandler (_gsSet : GameServerSet) : List EnqueueOp :=
  [EnqueueOp.enqueue]

/-- setUpdateHandler embeds the UpdateFunc handler that NewController
registers on the GameServerSet informer: the set is enqueued, immediately,
exactly when the desired replica count changed. -/
def setUpdateHandler (oldGss newGss : GameServerSet) : List EnqueueOp :=
  if oldGss.spec.replicas ≠ newGss.spec.replicas then
    [EnqueueOp.enqueueImmediately]
  else
    []

/-- StatusReason models metav1.StatusReason; the handler only ever writes
StatusReasonInvalid. -/
inductive StatusReason
  | invalid
  | otherReason (tag : Nat)
deriving DecidableEq

/-- StatusCause models metav1.StatusCause as far as the validator needs. -/
structure StatusCause where
  field : String
  message : String
deriving DecidableEq

/-- StatusDetails models metav1.StatusDetails as written by the handler. -/
structure StatusDetails where
  name : String
  group : String
  kind : String
  causes : List StatusCause
deriving DecidableEq

/-- StatusResult models the metav1.Status the handler attaches on denial. -/
structure StatusResult where
  failure : Bool
  reason : StatusReason
  details : Option StatusDetails
deriving DecidableEq

/-- AdmissionResponseModel models admv1beta1.AdmissionResponse. -/
structure AdmissionResponseModel where
  allowed : Bool
  result : Option StatusResult
deriving DecidableEq

/-- AdmissionRequestModel models the fields of admv1beta1.AdmissionRequest
that the handler reads.  The raw JSON payloads are modelled by their decode
results: Except.error stands for a json.Unmarshal failure. -/
structure AdmissionRequestModel where
  name : String
  kindGroup : String
  kindKind : String
  object : Except Nat GameServerSet
  oldObject : Except Nat GameServerSet

/-- AdmissionReviewModel models admv1beta1.AdmissionReview. -/
structure AdmissionReviewModel where
  request : AdmissionRequestModel
  response : AdmissionResponseModel

/-- Modelled from the spec: GameServerSet.ValidateUpdate is defined in the
API types package, which is not among the sources.  Per the spec it is a
pure function over the declared spec enforcing immutability of the template
identity and non-negativity of Replicas, reporting a cause per offending
field. -/
def ValidateUpdate (oldGss newGss : GameServerSet) : Bool × List StatusCause :=
  let causes :=
    (if oldGss.spec.template ≠ newGss.spec.template then
      [{ field := "template", message := "template cannot be updated" }]
    else []) ++
    (if newGss.spec.replicas < 0 then
      [{ field := "replicas", message := "replicas must be non-negative" }]
    else [])
  (causes.isEmpty, causes)

/-- updateValidationHandler embeds the handler of the same name: decode the
new and the old object (propagating either decode failure as an error),
run ValidateUpdate, and on failure deny the review with a structured
Invalid result carrying the reported causes; on success return the review
untouched. -/
def updateValidationHandler (review : AdmissionReviewModel) :
    Except Nat AdmissionReviewModel :=
  match review.request.object with
  | Except.error e => Except.error e
  | Except.ok newGss =>
    match review.request.oldObject with
    | Except.error e => Except.error e
    | Except.ok oldGss =>
      let v := ValidateUpdate oldGss newGss
      if v.1 then Except.ok review
      else
        Except.ok
          { review with
            response :=
              { allowed := false
                result := some
                  { failure := true
                    reason := StatusReason.invalid
                    details := some
                      { name := review.request.name
                        group := review.request.kindGroup
                        kind := review.request.kindKind
                        causes := v.2 } } } }

/-- GetResult models the outcome of a lister Get: the object, a not-found
error, or another error. -/
inductive GetResult (α : Type)
  | found (a : α)
  | notFound
  | err (e : APIError)

/-- SyncEnv packages the environment of one reconciliation pass: the
outcome of the key parse, of every lookup and API call the pass can make,
of the cache-sync wait, and the worker schedules of the two pipelines. -/
structure SyncEnv where
  parseKey : Option (String × String)
  getSet : GetResult GameServerSet
  listOwned : Except APIError (List GameServer)
  deleteOutcome : GameServer → Option APIError
  createOutcome : GameServer → Option APIError
  updateOutcome : Option APIError
  cacheSynced : Bool
  listOwned2 : Except APIError (List GameServer)
  createSched : List GameServer → List (List GameServer)
  deleteSched : List GameServer → List (List GameServer)

/-- syncGameServerSet embeds the reconciler entry point of the same name.
It returns the ordered trace of externally visible actions of the pass and
the pass's returned error (none means the queue marks the key done). -/
def syncGameServerSet (env : SyncEnv) : List Event × Option WrappedError :=
  match env.parseKey with
  | none => ([], none)
  | some _ =>
    match env.getSet with
    | GetResult.notFound => ([], none)
    | GetResult.err e => ([], some (WrappedError.wrapped e))
    | GetResult.found gsSet =>
      match env.listOwned with
      | Except.error e => ([], some (WrappedError.wrapped e))
      | Except.ok list =>
        let u := syncUnhealthyGameServers env.deleteOutcome list
        let t1 := u.1.map Event.delete
        match u.2 with
        | some e => (t1, some e)
        | none =>
          let diff := gsSet.spec.replicas - (list.length : Int)
          let m := syncMoreGameServers env.createOutcome env.createSched gsSet diff
          let t2 := t1 ++ m.1.map Event.create ++
            (if m.2.1 then [Event.enqueueImmediately] else [])
          match m.2.2 with
          | some e => (t2, some e)
          | none =>
            let x := removeExcessiveGameServers env.deleteOutcome env.deleteSched
              env.cacheSynced env.listOwned2 gsSet diff
            let t3 := t2 ++ x.1.map Event.delete ++
              (if x.2.1 then [Event.enqueueImmediately] else [])
            match x.2.2 with
            | some e => (t3, some e)
            | none =>
              let s := syncGameServerSetState env.updateOutcome gsSet list
              (t3 ++ s.1, s.2)

/-- unhealthyToReap is the reap condition of syncUnhealthyGameServers. -/
def unhealthyToReap (gs : GameServer) : Bool :=
  decide (gs.state = GameServerState.unhealthy ∧ gs.deletionTimestamp = none)

/-- liveReady classifies a member counted into ReadyReplicas. -/
def liveReady (gs : GameServer) : Bool :=
  decide (gs.deletionTimestamp = none ∧ gs.state = GameServerState.ready)

/-- liveAllocated classifies a member counted into AllocatedReplicas. -/
def liveAllocated (gs : GameServer) : Bool :=
  decide (gs.deletionTimestamp = none ∧ gs.state = GameServerState.allocated)

/-- Sample member in state Ready, used to evaluate the theorems on concrete
inputs. -/
def gsReady : GameServer :=
  { ns := "default", name := "gs-ready", state := GameServerState.ready,
    deletionTimestamp := none, node := "node-a" }

/-- Sample member in state Allocated. -/
def gsAllocated : GameServer :=
  { ns := "default", name := "gs-alloc", state := GameServerState.allocated,
    deletionTimestamp := none, node := "node-a" }

/-- Sample member in state Unhealthy with no deletion timestamp. -/
def gsUnhealthy : GameServer :=
  { ns := "default", name := "gs-sick", state := GameServerState.unhealthy,
    deletionTimestamp := none, node := "node-b" }

/-- Sample member already being deleted. -/
def gsDeleting : GameServer :=
  { ns := "default", name := "gs-gone", state := GameServerState.ready,
    deletionTimestamp := some 7, node := "node-b" }

/-- Sample set with Distributed scheduling. -/
def sampleSet : GameServerSet :=
  { ns := "default", name := "set-1",
    spec := { replicas := 3, scheduling := SchedulingStrategy.distributed,
              template := 0 },
    status := { replicas := 0, readyReplicas := 0, allocatedReplicas := 0 } }

/-- singleWorkerSched is the degenerate but valid worker schedule in which
one worker consumes the whole channel. -/
def singleWorkerSched : List GameServer → List (List GameServer) :=
  fun l => [l]

/-- failingWork fails exactly on unhealthy members; used to exercise the
pipeline's error path on concrete inputs. -/
def failingWork : GameServer → Option WrappedError := fun gs =>
  if gs.state = GameServerState.unhealthy then
    some (WrappedError.wrapped APIError.serverError)
  else none

/-- sampleEnvDrop is a pass environment whose key fails to parse. -/
def sampleEnvDrop : SyncEnv :=
  { parseKey := none
    getSet := GetResult.notFound
    listOwned := Except.ok []
    deleteOutcome := fun _ => none
    createOutcome := fun _ => none
    updateOutcome := none
    cacheSynced := true
    listOwned2 := Except.ok []
    createSched := singleWorkerSched
    deleteSched := singleWorkerSched }

/-- sampleEnvReap is a pass environment that finds the sample set owning a
ready, an unhealthy and a deleting member, with every API call
succeeding. -/
def sampleEnvReap : SyncEnv :=
  { parseKey := some ("default", "set-1")
    getSet := GetResult.found sampleSet
    listOwned := Except.ok [gsReady, gsUnhealthy, gsDeleting]
    deleteOutcome := fun _ => none
    createOutcome := fun _ => none
    updateOutcome := none
    cacheSynced := true
    listOwned2 := Except.ok [gsReady, gsUnhealthy, gsDeleting]
    createSched := singleWorkerSched
    deleteSched := singleWorkerSched }

/-- sampleReviewDeny is an update review whose payloads decode to sets with
different template identities, so validation fails. -/
def sampleReviewDeny : AdmissionReviewModel :=
  { request :=
      { name := "set-1", kindGroup := "stable.agones.dev",
        kindKind := "GameServerSet",
        object := Except.ok
          { sampleSet with
            spec := { replicas := 3,
                      scheduling := SchedulingStrategy.distributed,
                      template := 1 } }
        oldObject := Except.ok sampleSet }
    response := { allowed := true, result := none } }

theorem workerLoop_fst_sublist (work : GameServer → Option WrappedError)
    (p : List GameServer) : List.Sublist (workerLoop work p).1 p := by
  induction p with
  | nil => simp [workerLoop]
  | cons gs rest ih =>
    cases h : work gs with
    | some e => simp [workerLoop, h]
    | none =>
      simpa [workerLoop, h] using List.Sublist.cons₂ gs ih

theorem workerLoop_snd_none_iff (work : GameServer → Option WrappedError)
    (p : List GameServer) :
    (workerLoop work p).2 = none ↔ ∀ gs ∈ (workerLoop work p).1, work gs = none := by
  induction p with
  | nil => simp [workerLoop]
  | cons gs rest ih =>
    cases h : work gs with
    | some e => simp [workerLoop, h]
    | none => simp [workerLoop, h, ih]

theorem workerLoop_snd_eq_some (work : GameServer → Option WrappedError)
    (p : List GameServer) (e : WrappedError)
    (h : (workerLoop work p).2 = some e) :
    ∃ pre gs post, p = pre ++ gs :: post ∧ (workerLoop work p).1 = pre ++ [gs] ∧
      work gs = some e ∧ ∀ x ∈ pre, work x = none := by
  induction p with
  | nil => simp [workerLoop] at h
  | cons g rest ih =>
    cases hg : work g with
    | some e2 =>
      refine ⟨[], g, rest, by simp, ?_, ?_, by simp⟩
      · simp [workerLoop, hg]
      · simp [workerLoop, hg] at h
        rw [hg, h]
    | none =>
      simp only [workerLoop, hg] at h
      obtain ⟨pre, gs, post, hp, hfst, hw, hpre⟩ := ih h
      refine ⟨g :: pre, gs, post, by simp [hp], ?_, hw, ?_⟩
      · simp [workerLoop, hg, hfst]
      · intro x hx
        rcases List.mem_cons.mp hx with h1 | h1
        · rw [h1]; exact hg
        · exact hpre x h1

theorem parallelize_fst_sublist (work : GameServer → Option WrappedError)
    (parts : List (List GameServer)) :
    List.Sublist (parallelize work parts).1 parts.flatten := by
  induction parts with
  | nil => simp [parallelize]
  | cons p ps ih =>
    simp only [parallelize, List.map_cons, List.flatten] at ih ⊢
    exact List.Sublist.append (workerLoop_fst_sublist work p) ih

theorem parallelize_snd_none_iff (work : GameServer → Option WrappedError)
    (parts : List (List GameServer)) :
    (parallelize work parts).2 = none ↔
      ∀ gs ∈ (parallelize work parts).1, work gs = none := by
  induction parts with
  | nil => simp [parallelize]
  | cons p ps ih =>
    simp only [parallelize, List.map_cons, List.filterMap_cons, List.flatten] at ih ⊢
    cases h : (workerLoop work p).2 with
    | some e =>
      simp only [h]
      constructor
      · intro hh; simp at hh
      · intro hall
        exfalso
        have := (workerLoop_snd_none_iff work p).mpr
          (fun gs hgs => hall gs (List.mem_append_left _ hgs))
        rw [h] at this; exact Option.noConfusion this
    | none =>
      have hp := (workerLoop_snd_none_iff work p).mp h
      simp only [h]
      constructor
      · intro hh gs hgs
        rcases List.mem_append.mp hgs with h1 | h1
        · exact hp gs h1
        · exact (ih.mp hh) gs h1
      · intro hall
        exact ih.mpr (fun gs hgs => hall gs (List.mem_append_right _ hgs))

theorem parallelize_snd_eq_some (work : GameServer → Option WrappedError)
    (parts : List (List GameServer)) (e : WrappedError)
    (h : (parallelize work parts).2 = some e) :
    ∃ gs ∈ (parallelize work parts).1, work gs = some e := by
  induction parts with
  | nil => simp [parallelize] at h
  | cons p ps ih =>
    simp only [parallelize, List.map_cons, List.filterMap_cons, List.flatten] at h ⊢
    cases hw : (workerLoop work p).2 with
    | some e2 =>
      rw [hw] at h
      simp only [List.head?_cons, Option.some.injEq] at h
      subst h
      obtain ⟨pre, gs, post, _, hfst, hwork, _⟩ := workerLoop_snd_eq_some work p e2 hw
      exact ⟨gs, List.mem_append_left _ (by simp [hfst]), hwork⟩
    | none =>
      rw [hw] at h
      obtain ⟨gs, hmem, hwork⟩ := ih h
      exact ⟨gs, List.mem_append_right _ hmem, hwork⟩

theorem generateNGameServers_length (n : Nat) (gsSet : GameServerSet) :
    (generateNGameServers n gsSet).length = n := by
  simp [generateNGameServers]

theorem parallelize_fst_length_le (work : GameServer → Option WrappedError)
    (sched : List GameServer → List (List GameServer))
    (hs : ValidWorkerSchedule sched) (l : List GameServer) :
    (parallelize work (sched l)).1.length ≤ l.length :=
  le_trans (List.Sublist.length_le (parallelize_fst_sublist work (sched l)))
    (List.Subperm.length_le (hs l))

theorem parallelize_fst_mem (work : GameServer → Option WrappedError)
    (sched : List GameServer → List (List GameServer))
    (hs : ValidWorkerSchedule sched) (l : List GameServer) (gs : GameServer)
    (h : gs ∈ (parallelize work (sched l)).1) : gs ∈ l :=
  List.Subperm.subset (hs l) (List.Sublist.subset (parallelize_fst_sublist work (sched l)) h)

theorem selectVictims_eq (room : Nat) (l : List GameServer) :
    selectVictims room l =
      ((l.filter (fun gs => ! scaleDownSkip gs)).take room,
       decide (room < (l.filter (fun gs => ! scaleDownSkip gs)).length)) := by
  induction l generalizing room with
  | nil => simp [selectVictims]
  | cons gs rest ih =>
    by_cases h : scaleDownSkip gs = true
    · simp [selectVictims, h, ih]
    · cases room with
      | zero =>
        simp [selectVictims, h]
      | succ r =>
        simp [selectVictims, h, ih, Nat.succ_lt_succ_iff]

theorem syncUnhealthy_all_success (out : GameServer → Option APIError)
    (list : List GameServer) (h : ∀ gs, out gs = none) :
    syncUnhealthyGameServers out list = (list.filter unhealthyToReap, none) := by
  induction list with
  | nil => simp [syncUnhealthyGameServers]
  | cons gs rest ih =>
    by_cases hg : gs.state = GameServerState.unhealthy ∧ gs.deletionTimestamp = none
    · simp [syncUnhealthyGameServers, hg, h gs, ih, unhealthyToReap, List.filter_cons]
    · simp [syncUnhealthyGameServers, hg, ih, unhealthyToReap, List.filter_cons]

theorem syncUnhealthy_snd_none_iff (out : GameServer → Option APIError)
    (list : List GameServer) :
    (syncUnhealthyGameServers out list).2 = none ↔
      ∀ gs ∈ (syncUnhealthyGameServers out list).1, out gs = none := by
  induction list with
  | nil => simp [syncUnhealthyGameServers]
  | cons gs rest ih =>
    by_cases hg : gs.state = GameServerState.unhealthy ∧ gs.deletionTimestamp = none
    · cases ho : out gs with
      | some e => simp [syncUnhealthyGameServers, hg, ho]
      | none => simp [syncUnhealthyGameServers, hg, ho, ih]
    · simp [syncUnhealthyGameServers, hg, ih]

theorem gameServerCounts_foldl (l : List GameServer) (a b : Int) :
    l.foldl countStep (a, b) =
      (a + (l.countP liveReady : Int), b + (l.countP liveAllocated : Int)) := by
  induction l generalizing a b with
  | nil => simp
  | cons gs rest ih =>
    rw [List.foldl_cons]
    cases hts : gs.deletionTimestamp with
    | some t =>
      simp only [countStep, hts]
      simp only [ih]
      simp [List.countP_cons, liveReady, liveAllocated, hts]
    | none =>
      cases hst : gs.state with
      | ready =>
        simp only [countStep, hts, hst, if_pos rfl]
        simp only [ih]
        simp [List.countP_cons, liveReady, liveAllocated, hts, hst]
        omega
      | allocated =>
        simp only [countStep, hts, hst, if_pos rfl]
        simp only [ih]
        simp [List.countP_cons, liveReady, liveAllocated, hts, hst]
        omega
      | unhealthy =>
        simp only [countStep, hts, hst, if_pos rfl]
        simp only [ih]
        simp [List.countP_cons, liveReady, liveAllocated, hts, hst]
      | other tag =>
        simp only [countStep, hts, hst, if_pos rfl]
        simp only [ih]
        simp [List.countP_cons, liveReady, liveAllocated, hts, hst]

theorem gameServerCounts_eq (l : List GameServer) :
    gameServerCounts l =
      ((l.countP liveReady : Int), (l.countP liveAllocated : Int)) := by
  simpa using gameServerCounts_foldl l 0 0

theorem removeExcessive_nonneg (dout : GameServer → Option APIError)
    (sched : List GameServer → List (List GameServer)) (cs : Bool)
    (lf : Except APIError (List GameServer)) (gsSet : GameServerSet)
    (diff : Int) (h : 0 ≤ diff) :
    removeExcessiveGameServers dout sched cs lf gsSet diff = ([], false, none) := by
  rw [removeExcessiveGameServers.eq_def, if_pos h]

theorem removeExcessive_nosync (dout : GameServer → Option APIError)
    (sched : List GameServer → List (List GameServer))
    (lf : Except APIError (List GameServer)) (gsSet : GameServerSet)
    (diff : Int) (h : diff < 0) :
    removeExcessiveGameServers dout sched false lf gsSet diff =
      ([], false, some WrappedError.cacheSyncFailed) := by
  rw [removeExcessiveGameServers.eq_def, if_neg (not_le.mpr h), if_pos (by simp)]

theorem removeExcessive_listerr (dout : GameServer → Option APIError)
    (sched : List GameServer → List (List GameServer)) (gsSet : GameServerSet)
    (diff : Int) (e : APIError) (h : diff < 0) :
    removeExcessiveGameServers dout sched true (Except.error e) gsSet diff =
      ([], false, some (WrappedError.wrapped e)) := by
  rw [removeExcessiveGameServers, if_neg (not_le.mpr h), if_neg (by simp)]

theorem removeExcessive_spec (dout : GameServer → Option APIError)
    (sched : List GameServer → List (List GameServer))
    (list : List GameServer) (gsSet : GameServerSet) (diff : Int)
    (h : diff < 0) :
    removeExcessiveGameServers dout sched true (Except.ok list) gsSet diff =
      (let work := fun gs => (dout gs).map WrappedError.wrapped
       let v := selectVictims (min maxGameServerDeletionsPerBatch (-diff).toNat)
         (excessDeleteCandidates gsSet list (-diff).toNat)
       let r := parallelize work (sched v.1)
       match r.2 with
       | some e => (r.1, false, some e)
       | none => (r.1, v.2, none)) := by
  rw [removeExcessiveGameServers, if_neg (not_le.mpr h), if_neg (by simp)]

theorem syncMore_nonpos (cout : GameServer → Option APIError)
    (sched : List GameServer → List (List GameServer)) (gsSet : GameServerSet)
    (diff : Int) (h : diff ≤ 0) :
    syncMoreGameServers cout sched gsSet diff = ([], false, none) := by
  rw [syncMoreGameServers, if_pos h]

theorem syncMore_pos (cout : GameServer → Option APIError)
    (sched : List GameServer → List (List GameServer)) (gsSet : GameServerSet)
    (diff : Int) (h : 0 < diff) :
    syncMoreGameServers cout sched gsSet diff =
      (let work := fun gs => (cout gs).map WrappedError.wrapped
       let r := parallelize work
         (sched (generateNGameServers (min diff.toNat maxGameServerCreationsPerBatch) gsSet))
       match r.2 with
       | some e => (r.1, false, some e)
       | none => (r.1, decide (maxGameServerCreationsPerBatch < diff.toNat), none)) := by
  rw [syncMoreGameServers, if_neg (not_le.mpr h)]

theorem singleWorkerSched_valid : ValidWorkerSchedule singleWorkerSched := by
  intro l
  simpa [singleWorkerSched] using List.Subperm.refl l

theorem removeExcessive_fst_eligible (dout : GameServer → Option APIError)
    (sched : List GameServer → List (List GameServer))
    (cs : Bool) (lf : Except APIError (List GameServer))
    (gsSet : GameServerSet) (diff : Int)
    (hs : ValidWorkerSchedule sched) :
    ∀ gs ∈ (removeExcessiveGameServers dout sched cs lf gsSet diff).1,
      scaleDownSkip gs = false := by
  intro gs hgs
  rcases le_or_lt 0 diff with h0 | h0
  · rw [removeExcessive_nonneg dout sched cs lf gsSet diff h0] at hgs
    simp at hgs
  · cases cs with
    | false =>
      rw [removeExcessive_nosync dout sched lf gsSet diff h0] at hgs
      simp at hgs
    | true =>
      cases lf with
      | error e =>
        rw [removeExcessive_listerr dout sched gsSet diff e h0] at hgs
        simp at hgs
      | ok list =>
        rw [removeExcessive_spec dout sched list gsSet diff h0] at hgs
        simp only at hgs
        cases hr : (parallelize (fun gs => (dout gs).map WrappedError.wrapped)
            (sched (selectVictims
              (min maxGameServerDeletionsPerBatch (-diff).toNat)
              (excessDeleteCandidates gsSet list (-diff).toNat)).1)).2 with
        | some e =>
          rw [hr] at hgs
          simp only at hgs
          have hv := parallelize_fst_mem _ sched hs _ gs hgs
          rw [selectVictims_eq] at hv
          have hv2 := List.mem_filter.mp ((List.take_sublist _ _).subset hv)
          simpa using hv2.2
        | none =>
          rw [hr] at hgs
          simp only at hgs
          have hv := parallelize_fst_mem _ sched hs _ gs hgs
          rw [selectVictims_eq] at hv
          have hv2 := List.mem_filter.mp ((List.take_sublist _ _).subset hv)
          simpa using hv2.2

theorem removeExcessive_fst_length (dout : GameServer → Option APIError)
    (sched : List GameServer → List (List GameServer))
    (cs : Bool) (lf : Except APIError (List GameServer))
    (gsSet : GameServerSet) (diff : Int)
    (hs : ValidWorkerSchedule sched) :
    (removeExcessiveGameServers dout sched cs lf gsSet diff).1.length ≤
      min maxGameServerDeletionsPerBatch (-diff).toNat := by
  rcases le_or_lt 0 diff with h0 | h0
  · rw [removeExcessive_nonneg dout sched cs lf gsSet diff h0]
    simp
  · cases cs with
    | false =>
      rw [removeExcessive_nosync dout sched lf gsSet diff h0]
      simp
    | true =>
      cases lf with
      | error e =>
        rw [removeExcessive_listerr dout sched gsSet diff e h0]
        simp
      | ok list =>
        rw [removeExcessive_spec dout sched list gsSet diff h0]
        simp only
        have hlen : (selectVictims
            (min maxGameServerDeletionsPerBatch (-diff).toNat)
            (excessDeleteCandidates gsSet list (-diff).toNat)).1.length ≤
            min maxGameServerDeletionsPerBatch (-diff).toNat := by
          rw [selectVictims_eq]
          simp
        cases hr : (parallelize (fun gs => (dout gs).map WrappedError.wrapped)
            (sched (selectVictims
              (min maxGameServerDeletionsPerBatch (-diff).toNat)
              (excessDeleteCandidates gsSet list (-diff).toNat)).1)).2 with
        | some e =>
          exact le_trans (parallelize_fst_length_le _ sched hs _) hlen
        | none =>
          exact le_trans (parallelize_fst_length_le _ sched hs _) hlen

/-- C1: for every scale-down pass, removeExcessiveGameServers issues no
delete for a member whose state is Allocated or whose deletion timestamp is
set: such members are skipped when the victims are collected, whatever the
computed deficit, whatever the candidate list and however the pipeline
schedules its workers. -/
theorem C1_allocation_preservation (dout : GameServer → Option APIError)
    (sched : List GameServer → List (List GameServer))
    (cs : Bool) (lf : Except APIError (List GameServer))
    (gsSet : GameServerSet) (diff : Int)
    (hs : ValidWorkerSchedule sched) :
    ∀ gs ∈ (removeExcessiveGameServers dout sched cs lf gsSet diff).1,
      gs.state ≠ GameServerState.allocated ∧ gs.deletionTimestamp = none := by
  intro gs hgs
  have h := removeExcessive_fst_eligible dout sched cs lf gsSet diff hs gs hgs
  simpa [scaleDownSkip, not_or] using h

theorem C1_allocation_preservation_witness :
    ValidWorkerSchedule singleWorkerSched ∧
    ∀ gs ∈ (removeExcessiveGameServers (fun _ => none) singleWorkerSched true
        (Except.ok [gsAllocated, gsReady, gsDeleting]) sampleSet (-2)).1,
      gs.state ≠ GameServerState.allocated ∧ gs.deletionTimestamp = none :=
  ⟨singleWorkerSched_valid,
   C1_allocation_preservation (fun _ => none) singleWorkerSched true
     (Except.ok [gsAllocated, gsReady, gsDeleting]) sampleSet (-2)
     singleWorkerSched_valid⟩

/-- C10: in a scale-down pass the number of delete calls issued is bounded
by the absolute value of the deficit: the deletion batch size is the
minimum of that deficit and 16, so no more than the deficit is ever
deleted even when more eligible candidates exist. -/
theorem C10_deletes_bounded_by_deficit (dout : GameServer → Option APIError)
    (sched : List GameServer → List (List GameServer))
    (cs : Bool) (lf : Except APIError (List GameServer))
    (gsSet : GameServerSet) (diff : Int)
    (hs : ValidWorkerSchedule sched) (hdiff : diff < 0) :
    (removeExcessiveGameServers dout sched cs lf gsSet diff).1.length ≤
      diff.natAbs := by
  have h := removeExcessive_fst_length dout sched cs lf gsSet diff hs
  have h2 : (-diff).toNat = diff.natAbs := by omega
  omega

theorem C10_deletes_bounded_by_deficit_witness :
    (ValidWorkerSchedule singleWorkerSched ∧ (-1 : Int) < 0) ∧
    (removeExcessiveGameServers (fun _ => none) singleWorkerSched true
        (Except.ok [gsReady, gsReady, gsReady]) sampleSet (-1)).1.length ≤
      (-1 : Int).natAbs :=
  ⟨⟨singleWorkerSched_valid, by decide⟩,
   C10_deletes_bounded_by_deficit (fun _ => none) singleWorkerSched true
     (Except.ok [gsReady, gsReady, gsReady]) sampleSet (-1)
     singleWorkerSched_valid (by decide)⟩

/-- C5: parallelize returns nil exactly when every invocation of work
returned nil; when it returns an error that error was produced by some
invocation of work; and a worker that receives an error invokes work on no
further item: its invocations are exactly its error-free prefix plus the
one failing item. -/
theorem C5_parallelize_error_contract (work : GameServer → Option WrappedError)
    (parts : List (List GameServer)) :
    ((parallelize work parts).2 = none ↔
      ∀ gs ∈ (parallelize work parts).1, work gs = none) ∧
    (∀ e, (parallelize work parts).2 = some e →
      ∃ gs ∈ (parallelize work parts).1, work gs = some e) ∧
    (∀ p ∈ parts, ∀ e, (workerLoop work p).2 = some e →
      ∃ pre gs post, p = pre ++ gs :: post ∧
        (workerLoop work p).1 = pre ++ [gs] ∧
        work gs = some e ∧ ∀ x ∈ pre, work x = none) :=
  ⟨parallelize_snd_none_iff work parts,
   fun e h => parallelize_snd_eq_some work parts e h,
   fun p _ e h => workerLoop_snd_eq_some work p e h⟩

theorem C5_parallelize_error_contract_witness :
    ((parallelize failingWork [[gsReady, gsUnhealthy, gsAllocated]]).2 = none ↔
      ∀ gs ∈ (parallelize failingWork [[gsReady, gsUnhealthy, gsAllocated]]).1,
        failingWork gs = none) ∧
    (∀ e, (parallelize failingWork [[gsReady, gsUnhealthy, gsAllocated]]).2 = some e →
      ∃ gs ∈ (parallelize failingWork [[gsReady, gsUnhealthy, gsAllocated]]).1,
        failingWork gs = some e) ∧
    (∀ p ∈ [[gsReady, gsUnhealthy, gsAllocated]], ∀ e,
        (workerLoop failingWork p).2 = some e →
      ∃ pre gs post, p = pre ++ gs :: post ∧
        (workerLoop failingWork p).1 = pre ++ [gs] ∧
        failingWork gs = some e ∧ ∀ x ∈ pre, failingWork x = none) :=
  C5_parallelize_error_contract failingWork [[gsReady, gsUnhealthy, gsAllocated]]

/-- C4 counterexample: a member delete failing with the platform's
not-found error is not treated as success: both syncUnhealthyGameServers
and removeExcessiveGameServers return a non-nil wrapped error for a member
that is already gone, so the pass is retried. -/
theorem C4_not_found_counterexample :
    (syncUnhealthyGameServers (fun _ => some APIError.notFound) [gsUnhealthy]).2 =
      some (WrappedError.wrapped APIError.notFound) ∧
    (removeExcessiveGameServers (fun _ => some APIError.notFound)
        singleWorkerSched true (Except.ok [gsReady]) sampleSet (-1)).2.2 =
      some (WrappedError.wrapped APIError.notFound) := by
  decide

/-- C4 amended: a delete request failing with not-found receives no special
treatment: each of syncUnhealthyGameServers and removeExcessiveGameServers
returns nil exactly when every delete it issued returned nil, so a
not-found failure on a member is propagated as an error like any other
failure and the pass is retried. -/
theorem C4_delete_error_propagation (dout : GameServer → Option APIError)
    (sched : List GameServer → List (List GameServer))
    (list : List GameServer) (gsSet : GameServerSet) (diff : Int) :
    ((syncUnhealthyGameServers dout list).2 = none ↔
      ∀ gs ∈ (syncUnhealthyGameServers dout list).1, dout gs = none) ∧
    ((removeExcessiveGameServers dout sched true (Except.ok list) gsSet diff).2.2
        = none ↔
      ∀ gs ∈ (removeExcessiveGameServers dout sched true
          (Except.ok list) gsSet diff).1, dout gs = none) := by
  refine ⟨syncUnhealthy_snd_none_iff dout list, ?_⟩
  rcases le_or_lt 0 diff with h0 | h0
  · rw [removeExcessive_nonneg dout sched true (Except.ok list) gsSet diff h0]
    simp
  · rw [removeExcessive_spec dout sched list gsSet diff h0]
    simp only
    cases hr : (parallelize (fun gs => (dout gs).map WrappedError.wrapped)
        (sched (selectVictims
          (min maxGameServerDeletionsPerBatch (-diff).toNat)
          (excessDeleteCandidates gsSet list (-diff).toNat)).1)).2 with
    | some e =>
      have hiff := (parallelize_snd_none_iff
        (fun gs => (dout gs).map WrappedError.wrapped)
        (sched (selectVictims
          (min maxGameServerDeletionsPerBatch (-diff).toNat)
          (excessDeleteCandidates gsSet list (-diff).toNat)).1))
      rw [hr] at hiff
      exact Iff.intro (fun hh => Option.noConfusion hh)
        (fun hall => absurd
          (hiff.mpr (fun gs hgs => by rw [hall gs hgs]; rfl))
          (by simp))
    | none =>
      have hiff := (parallelize_snd_none_iff
        (fun gs => (dout gs).map WrappedError.wrapped)
        (sched (selectVictims
          (min maxGameServerDeletionsPerBatch (-diff).toNat)
          (excessDeleteCandidates gsSet list (-diff).toNat)).1))
      rw [hr] at hiff
      exact Iff.intro
        (fun _ gs hgs => by
          have h3 := hiff.mp rfl gs hgs
          simpa using h3)
        (fun _ => rfl)

/-- C3 counterexample: a set update event whose old and new objects carry
the same Spec.Replicas enqueues nothing, so not every set update event
results in an enqueue of the set's key. -/
theorem C3_update_without_replica_change_counterexample :
    setUpdateHandler sampleSet sampleSet = [] := by
  simp [setUpdateHandler]

/-- C3 amended: on a set add event the handler enqueues the set's key; on a
set update event the handler enqueues the key, via EnqueueImmediately,
exactly when Spec.Replicas changed between the old and the new object, and
enqueues nothing otherwise. -/
theorem C3_set_event_enqueues (s oldGss newGss : GameServerSet) :
    setAddHandler s = [EnqueueOp.enqueue] ∧
    (setUpdateHandler oldGss newGss = [EnqueueOp.enqueueImmediately] ↔
      oldGss.spec.replicas ≠ newGss.spec.replicas) ∧
    (setUpdateHandler oldGss newGss = [] ↔
      oldGss.spec.replicas = newGss.spec.replicas) := by
  refine ⟨rfl, ?_, ?_⟩ <;>
    by_cases h : oldGss.spec.replicas = newGss.spec.replicas <;>
      simp [setUpdateHandler, h]

theorem syncMore_fst_length (cout : GameServer → Option APIError)
    (sched : List GameServer → List (List GameServer)) (gsSet : GameServerSet)
    (diff : Int) (hc : ValidWorkerSchedule sched) :
    (syncMoreGameServers cout sched gsSet diff).1.length ≤
      min diff.toNat maxGameServerCreationsPerBatch := by
  rcases le_or_lt diff 0 with h0 | h0
  · rw [syncMore_nonpos cout sched gsSet diff h0]
    simp
  · rw [syncMore_pos cout sched gsSet diff h0]
    simp only
    cases hr : (parallelize (fun gs => (cout gs).map WrappedError.wrapped)
        (sched (generateNGameServers
          (min diff.toNat maxGameServerCreationsPerBatch) gsSet))).2 with
    | some e =>
      exact le_trans (parallelize_fst_length_le _ sched hc _)
        (le_of_eq (generateNGameServers_length _ _))
    | none =>
      exact le_trans (parallelize_fst_length_le _ sched hc _)
        (le_of_eq (generateNGameServers_length _ _))

theorem syncMore_enqueue (cout : GameServer → Option APIError)
    (sched : List GameServer → List (List GameServer)) (gsSet : GameServerSet)
    (diff : Int) (h16 : (maxGameServerCreationsPerBatch : Int) < diff)
    (hok : (syncMoreGameServers cout sched gsSet diff).2.2 = none) :
    (syncMoreGameServers cout sched gsSet diff).2.1 = true := by
  have h0 : 0 < diff := by
    have : (0 : Int) < maxGameServerCreationsPerBatch := by
      simp [maxGameServerCreationsPerBatch]
    omega
  rw [syncMore_pos cout sched gsSet diff h0] at hok ⊢
  simp only at hok ⊢
  cases hr : (parallelize (fun gs => (cout gs).map WrappedError.wrapped)
      (sched (generateNGameServers
        (min diff.toNat maxGameServerCreationsPerBatch) gsSet))).2 with
  | some e =>
    rw [hr] at hok
    exact Option.noConfusion hok
  | none =>
    have hmc : maxGameServerCreationsPerBatch = 16 := rfl
    exact decide_eq_true (by omega)

theorem removeExcessive_enqueue (dout : GameServer → Option APIError)
    (sched : List GameServer → List (List GameServer))
    (list : List GameServer) (gsSet : GameServerSet) (diff : Int)
    (hdiff : diff < 0)
    (hmore : min maxGameServerDeletionsPerBatch (-diff).toNat <
      ((excessDeleteCandidates gsSet list (-diff).toNat).filter
        (fun gs => ! scaleDownSkip gs)).length)
    (hok : (removeExcessiveGameServers dout sched true
      (Except.ok list) gsSet diff).2.2 = none) :
    (removeExcessiveGameServers dout sched true
      (Except.ok list) gsSet diff).2.1 = true := by
  rw [removeExcessive_spec dout sched list gsSet diff hdiff] at hok ⊢
  simp only at hok ⊢
  cases hr : (parallelize (fun gs => (dout gs).map WrappedError.wrapped)
      (sched (selectVictims
        (min maxGameServerDeletionsPerBatch (-diff).toNat)
        (excessDeleteCandidates gsSet list (-diff).toNat)).1)).2 with
  | some e =>
    rw [hr] at hok
    exact Option.noConfusion hok
  | none =>
    have hsv : (selectVictims
        (min maxGameServerDeletionsPerBatch (-diff).toNat)
        (excessDeleteCandidates gsSet list (-diff).toNat)).2 =
        decide (min maxGameServerDeletionsPerBatch (-diff).toNat <
          ((excessDeleteCandidates gsSet list (-diff).toNat).filter
            (fun gs => ! scaleDownSkip gs)).length) := by
      rw [selectVictims_eq]
    exact hsv.trans (decide_eq_true hmore)

/-- C2: within one pass, the creation phase issues at most 16 create calls
and the deletion phase at most 16 delete calls; and each phase, when its
batch completes without error while more work remains (a deficit above the
creation batch size, respectively an eligible deletion victim that did not
fit in the deletion batch), re-enqueues the set's key immediately. -/
theorem C2_batch_bound_and_reenqueue (cout dout : GameServer → Option APIError)
    (csched dsched : List GameServer → List (List GameServer))
    (gsSet : GameServerSet) (list : List GameServer) (diff : Int)
    (hc : ValidWorkerSchedule csched) (hd : ValidWorkerSchedule dsched) :
    (syncMoreGameServers cout csched gsSet diff).1.length ≤ 16 ∧
    ((16 : Int) < diff → (syncMoreGameServers cout csched gsSet diff).2.2 = none →
      (syncMoreGameServers cout csched gsSet diff).2.1 = true) ∧
    (removeExcessiveGameServers dout dsched true
      (Except.ok list) gsSet diff).1.length ≤ 16 ∧
    (diff < 0 →
      min maxGameServerDeletionsPerBatch (-diff).toNat <
        ((excessDeleteCandidates gsSet list (-diff).toNat).filter
          (fun gs => ! scaleDownSkip gs)).length →
      (removeExcessiveGameServers dout dsched true
        (Except.ok list) gsSet diff).2.2 = none →
      (removeExcessiveGameServers dout dsched true
        (Except.ok list) gsSet diff).2.1 = true) := by
  refine ⟨?_, ?_, ?_, ?_⟩
  · exact le_trans (syncMore_fst_length cout csched gsSet diff hc)
      (le_trans (min_le_right _ _) (by simp [maxGameServerCreationsPerBatch]))
  · intro h16 hok
    exact syncMore_enqueue cout csched gsSet diff
      (by simpa [maxGameServerCreationsPerBatch] using h16) hok
  · exact le_trans
      (removeExcessive_fst_length dout dsched true (Except.ok list) gsSet diff hd)
      (le_trans (min_le_left _ _) (by simp [maxGameServerDeletionsPerBatch]))
  · intro hdiff hmore hok
    exact removeExcessive_enqueue dout dsched list gsSet diff hdiff hmore hok

theorem C2_batch_bound_and_reenqueue_witness :
    (ValidWorkerSchedule singleWorkerSched ∧
     ValidWorkerSchedule singleWorkerSched) ∧
    ((syncMoreGameServers (fun _ => none) singleWorkerSched sampleSet 20).1.length ≤ 16 ∧
     ((16 : Int) < 20 →
       (syncMoreGameServers (fun _ => none) singleWorkerSched sampleSet 20).2.2 = none →
       (syncMoreGameServers (fun _ => none) singleWorkerSched sampleSet 20).2.1 = true) ∧
     (removeExcessiveGameServers (fun _ => none) singleWorkerSched true
       (Except.ok [gsReady]) sampleSet 20).1.length ≤ 16 ∧
     ((20 : Int) < 0 →
       min maxGameServerDeletionsPerBatch ((-20 : Int)).toNat <
         ((excessDeleteCandidates sampleSet [gsReady] ((-20 : Int)).toNat).filter
           (fun gs => ! scaleDownSkip gs)).length →
       (removeExcessiveGameServers (fun _ => none) singleWorkerSched true
         (Except.ok [gsReady]) sampleSet 20).2.2 = none →
       (removeExcessiveGameServers (fun _ => none) singleWorkerSched true
         (Except.ok [gsReady]) sampleSet 20).2.1 = true)) :=
  ⟨⟨singleWorkerSched_valid, singleWorkerSched_valid⟩,
   C2_batch_bound_and_reenqueue (fun _ => none) (fun _ => none)
     singleWorkerSched singleWorkerSched sampleSet [gsReady] 20
     singleWorkerSched_valid singleWorkerSched_valid⟩

theorem syncGameServerSet_reap_first (env : SyncEnv) (k : String × String)
    (gsSet : GameServerSet) (list : List GameServer)
    (hk : env.parseKey = some k) (hg : env.getSet = GetResult.found gsSet)
    (hl : env.listOwned = Except.ok list) :
    ∃ rest, (syncGameServerSet env).1 =
      (syncUnhealthyGameServers env.deleteOutcome list).1.map Event.delete
        ++ rest := by
  rw [syncGameServerSet.eq_def, hk, hg, hl]
  dsimp only
  rcases hu : syncUnhealthyGameServers env.deleteOutcome list with ⟨dels, err⟩
  cases err with
  | some e => exact ⟨[], by simp⟩
  | none =>
    rcases hm : syncMoreGameServers env.createOutcome env.createSched gsSet
        (gsSet.spec.replicas - (list.length : Int)) with ⟨creates, enqm, errm⟩
    cases errm with
    | some e =>
      exact ⟨creates.map Event.create ++
        (if enqm = true then [Event.enqueueImmediately] else []),
        by simp [List.append_assoc]⟩
    | none =>
      rcases hx : removeExcessiveGameServers env.deleteOutcome env.deleteSched
          env.cacheSynced env.listOwned2 gsSet
          (gsSet.spec.replicas - (list.length : Int)) with ⟨dels2, enqx, errx⟩
      cases errx with
      | some e =>
        exact ⟨creates.map Event.create ++
          ((if enqm = true then [Event.enqueueImmediately] else []) ++
            (dels2.map Event.delete ++
              (if enqx = true then [Event.enqueueImmediately] else []))),
          by simp [List.append_assoc]⟩
      | none =>
        exact ⟨creates.map Event.create ++
          ((if enqm = true then [Event.enqueueImmediately] else []) ++
            (dels2.map Event.delete ++
              ((if enqx = true then [Event.enqueueImmediately] else []) ++
                (syncGameServerSetState env.updateOutcome gsSet list).1))),
          by simp [List.append_assoc]⟩

/-- C6: provided every issued delete request succeeds, the pass issues a
delete for every listed member whose state is Unhealthy and whose deletion
timestamp is zero, and all of these reap deletes stand in the pass's trace
before every action of the scale-up and of the scale-down phase. -/
theorem C6_unhealthy_reap_first (env : SyncEnv) (k : String × String)
    (gsSet : GameServerSet) (list : List GameServer)
    (hk : env.parseKey = some k) (hg : env.getSet = GetResult.found gsSet)
    (hl : env.listOwned = Except.ok list)
    (hdel : ∀ gs, env.deleteOutcome gs = none) :
    (∃ rest, (syncGameServerSet env).1 =
      (list.filter unhealthyToReap).map Event.delete ++ rest) ∧
    ∀ gs ∈ list, gs.state = GameServerState.unhealthy →
      gs.deletionTimestamp = none →
      Event.delete gs ∈ (syncGameServerSet env).1 := by
  have h1 := syncGameServerSet_reap_first env k gsSet list hk hg hl
  rw [syncUnhealthy_all_success env.deleteOutcome list hdel] at h1
  refine ⟨h1, ?_⟩
  obtain ⟨rest, hr⟩ := h1
  intro gs hgs hst hts
  rw [hr]
  refine List.mem_append_left _ ?_
  exact List.mem_map_of_mem _
    (List.mem_filter.mpr ⟨hgs, by simp [unhealthyToReap, hst, hts]⟩)

theorem C6_unhealthy_reap_first_witness :
    (sampleEnvReap.parseKey = some ("default", "set-1") ∧
     sampleEnvReap.getSet = GetResult.found sampleSet ∧
     sampleEnvReap.listOwned = Except.ok [gsReady, gsUnhealthy, gsDeleting] ∧
     ∀ gs, sampleEnvReap.deleteOutcome gs = none) ∧
    ((∃ rest, (syncGameServerSet sampleEnvReap).1 =
      ([gsReady, gsUnhealthy, gsDeleting].filter unhealthyToReap).map Event.delete
        ++ rest) ∧
     ∀ gs ∈ [gsReady, gsUnhealthy, gsDeleting],
       gs.state = GameServerState.unhealthy → gs.deletionTimestamp = none →
       Event.delete gs ∈ (syncGameServerSet sampleEnvReap).1) :=
  ⟨⟨rfl, rfl, rfl, fun _ => rfl⟩,
   C6_unhealthy_reap_first sampleEnvReap ("default", "set-1") sampleSet
     [gsReady, gsUnhealthy, gsDeleting] rfl rfl rfl (fun _ => rfl)⟩

/-- C7: syncGameServerSetState computes Replicas as the length of the whole
member list (members bearing a deletion timestamp included) and
ReadyReplicas and AllocatedReplicas as the counts of not-being-deleted
members in states Ready and Allocated; when this triple equals the set's
current status it issues no update call, and otherwise it issues exactly
one update carrying the new status. -/
theorem C7_status_publication (upd : Option APIError) (gsSet : GameServerSet)
    (list : List GameServer) :
    (syncGameServerSetState upd gsSet list).1 =
      (if gsSet.status =
          ({ replicas := (list.length : Int),
             readyReplicas := (list.countP liveReady : Int),
             allocatedReplicas := (list.countP liveAllocated : Int) } :
            GameServerSetStatus)
       then []
       else [Event.updateStatus
          { replicas := (list.length : Int),
            readyReplicas := (list.countP liveReady : Int),
            allocatedReplicas := (list.countP liveAllocated : Int) }]) := by
  unfold syncGameServerSetState
  rw [gameServerCounts_eq]
  by_cases h : gsSet.status =
      ({ replicas := (list.length : Int),
         readyReplicas := (list.countP liveReady : Int),
         allocatedReplicas := (list.countP liveAllocated : Int) } :
        GameServerSetStatus)
  · simp [h]
  · cases upd <;> simp [h]

/-- C9: a key that fails to parse and a set lookup reporting not-found both
end the pass immediately with a nil error, performing no create, delete,
status update or enqueue. -/
theorem C9_benign_drop (env : SyncEnv)
    (h : env.parseKey = none ∨ env.getSet = GetResult.notFound) :
    syncGameServerSet env = ([], none) := by
  rcases h with h | h
  · rw [syncGameServerSet.eq_def, h]
  · rw [syncGameServerSet.eq_def, h]
    cases hp : env.parseKey <;> rfl

theorem C9_benign_drop_witness :
    (sampleEnvDrop.parseKey = none ∨
      sampleEnvDrop.getSet = GetResult.notFound) ∧
    syncGameServerSet sampleEnvDrop = ([], none) :=
  ⟨Or.inl rfl, C9_benign_drop sampleEnvDrop (Or.inl rfl)⟩

/-- C8: for an update review whose old and new payloads both decode, a
failing ValidateUpdate denies the review with Allowed false, reason
Invalid and the validator's non-empty causes attached to the result
details; a passing ValidateUpdate returns the review untouched, so the
transport's allowed verdict stands; and a decode failure of either payload
is returned as an error, never as a permitted review. -/
theorem C8_update_validation (review : AdmissionReviewModel)
    (oldGss newGss : GameServerSet)
    (hnew : review.request.object = Except.ok newGss)
    (hold2 : review.request.oldObject = Except.ok oldGss) :
    ((ValidateUpdate oldGss newGss).1 = false →
      updateValidationHandler review = Except.ok
        { review with
          response :=
            { allowed := false
              result := some
                { failure := true
                  reason := StatusReason.invalid
                  details := some
                    { name := review.request.name
                      group := review.request.kindGroup
                      kind := review.request.kindKind
                      causes := (ValidateUpdate oldGss newGss).2 } } } } ∧
      (ValidateUpdate oldGss newGss).2 ≠ []) ∧
    ((ValidateUpdate oldGss newGss).1 = true →
      updateValidationHandler review = Except.ok review) ∧
    (∀ rv : AdmissionReviewModel,
      ((∃ e, rv.request.object = Except.error e) ∨
        (∃ e, rv.request.oldObject = Except.error e)) →
      ∃ e2, updateValidationHandler rv = Except.error e2) := by
  refine ⟨?_, ?_, ?_⟩
  · intro hfail
    constructor
    · rw [updateValidationHandler.eq_def, hnew]
      dsimp only
      rw [hold2]
      dsimp only
      rw [if_neg (by rw [hfail]; exact Bool.false_ne_true)]
    · intro hnil
      have hform : (ValidateUpdate oldGss newGss).1 =
          (ValidateUpdate oldGss newGss).2.isEmpty := rfl
      rw [hform, hnil] at hfail
      simp at hfail
  · intro hokv
    rw [updateValidationHandler.eq_def, hnew]
    dsimp only
    rw [hold2]
    dsimp only
    rw [if_pos hokv]
  · intro rv h
    cases ho : rv.request.object with
    | error e =>
      refine ⟨e, ?_⟩
      rw [updateValidationHandler.eq_def, ho]
    | ok g =>
      rcases h with ⟨e, he⟩ | ⟨e, he⟩
      · rw [ho] at he
        exact Except.noConfusion he
      · refine ⟨e, ?_⟩
        rw [updateValidationHandler.eq_def, ho]
        dsimp only
        rw [he]

theorem C8_update_validation_witness :
    (sampleReviewDeny.request.object = Except.ok
      { sampleSet with
        spec := { replicas := 3,
                  scheduling := SchedulingStrategy.distributed,
                  template := 1 } } ∧
     sampleReviewDeny.request.oldObject = Except.ok sampleSet) ∧
    (((ValidateUpdate sampleSet
        { sampleSet with
          spec := { replicas := 3,
                    scheduling := SchedulingStrategy.distributed,
                    template := 1 } }).1 = false →
      updateValidationHandler sampleReviewDeny = Except.ok
        { sampleReviewDeny with
          response :=
            { allowed := false
              result := some
                { failure := true
                  reason := StatusReason.invalid
                  details := some
                    { name := sampleReviewDeny.request.name
                      group := sampleReviewDeny.request.kindGroup
                      kind := sampleReviewDeny.request.kindKind
                      causes := (ValidateUpdate sampleSet
                        { sampleSet with
                          spec := { replicas := 3,
                                    scheduling := SchedulingStrategy.distributed,
                                    template := 1 } }).2 } } } } ∧
      (ValidateUpdate sampleSet
        { sampleSet with
          spec := { replicas := 3,
                    scheduling := SchedulingStrategy.distributed,
                    template := 1 } }).2 ≠ []) ∧
     ((ValidateUpdate sampleSet
        { sampleSet with
          spec := { replicas := 3,
                    scheduling := SchedulingStrategy.distributed,
                    template := 1 } }).1 = true →
      updateValidationHandler sampleReviewDeny = Except.ok sampleReviewDeny) ∧
     (∀ rv : AdmissionReviewModel,
       ((∃ e, rv.request.object = Except.error e) ∨
         (∃ e, rv.request.oldObject = Except.error e)) →
       ∃ e2, updateValidationHandler rv = Except.error e2)) :=
  ⟨⟨rfl, rfl⟩,
   C8_update_validation sampleReviewDeny sampleSet
     { sampleSet with
       spec := { replicas := 3,
                 scheduling := SchedulingStrategy.distributed,
                 template := 1 } } rfl rfl⟩

end GameServerSets
